import Mathlib

/-!
Verification of the Family-Budget-Tracker core (src/src/App.js) against its
natural-language specification.

Modelling conventions (shallow embedding):
- A JavaScript `Date` value is an integer timestamp in milliseconds.  The
  specification scopes timezone artifacts out ("time-of-day and timezone
  artifacts are eliminated before subtraction"), so the embedding works in a
  fixed timezone where midnight boundaries are the multiples of `msPerDay`.
- JavaScript `%` on integers is a truncating remainder, embedded as
  `Int.tmod`; `Math.floor` of an exact millisecond quotient is `Int.fdiv`.
- An entry's date string is abstracted by `DateStr`: either a well-formed
  calendar date (parsing to midnight of that day) or an unparseable string.
- An entry's `amount` is abstracted by `JSAmount`, classified by what
  `Number(·)` coerces it to: a finite number (modelled as a rational), plus
  or minus Infinity, or NaN; sums are taken in the JS number domain `JSNum`
  with its absorbing infinities and NaN.
- The impure `new Date()` inside `parseISO` is made explicit: the current
  timestamp `now` is threaded as an argument.
-/

namespace FamilyBudget

/-- Milliseconds per day, the constant `1000 * 60 * 60 * 24` of App.js line 35. -/
def msPerDay : Int := 86400000

/-- Embeds `new Date(t.getFullYear(), t.getMonth(), t.getDate())` (App.js
lines 32-33): truncation of a timestamp to the midnight that starts its
calendar day, i.e. flooring to a multiple of `msPerDay`. -/
def stripTime (t : Int) : Int := msPerDay * (t.fdiv msPerDay)

/-- The `{start, end}` window returned by `getPeriodForDate`.  The JS field
`end` is a Lean keyword, rendered `end_`. -/
structure Period where
  start : Int
  end_ : Int
deriving DecidableEq

/-- Embeds `getPeriodForDate` (App.js lines 31-42):
strip both dates to midnight, take the floored day difference
(`Math.floor((d - a) / (1000*60*60*24))` is `Int.fdiv` of the millisecond
difference), force the remainder positive with `((diffDays % 14) + 14) % 14`
(JS `%` is truncating, hence `Int.tmod`), subtract that many days from the
reference midnight, and close the window 13 days later. -/
def getPeriodForDate (date anchorDate : Int) : Period :=
  let d := stripTime date
  let a := stripTime anchorDate
  let diffDays := (d - a).fdiv msPerDay
  let offset := (diffDays.tmod 14 + 14).tmod 14
  let start := d - offset * msPerDay
  { start := start, end_ := start + 13 * msPerDay }

/-- Embeds `addDays` (App.js lines 44-48): `setDate(getDate() + days)` shifts
a timestamp by whole calendar days. -/
def addDays (date : Int) (days : Int) : Int := date + days * msPerDay

/-! Arithmetic bridges from the JS operators (`Int.tmod`, `Int.fdiv`) to the
mathematical floored quotient and remainder (`Int.ediv`/`Int.emod`, which for
a positive divisor coincide with floored division and floored modulo). -/

theorem tmod_lb (n : Int) : -14 < n.tmod 14 := by
  rcases Int.le_total 0 n with hn | hn
  · have h := Int.tmod_nonneg 14 hn
    omega
  · have hmn : n.tmod 14 = -((-n).tmod 14) := by
      rw [Int.tmod_def, Int.tmod_def, Int.neg_tdiv]
      ring
    have h1 : (-n).tmod 14 < 14 := Int.tmod_lt_of_pos _ (by norm_num)
    omega

theorem tmod_fix (n : Int) : (n.tmod 14 + 14).tmod 14 = n % 14 := by
  have hub : n.tmod 14 < 14 := Int.tmod_lt_of_pos n (by norm_num)
  have hlb : -14 < n.tmod 14 := tmod_lb n
  rw [Int.tmod_eq_emod (by omega) (by norm_num)]
  conv_rhs => rw [← Int.tmod_add_tdiv n 14]
  rw [Int.add_mul_emod_self_left, Int.add_emod_self]

theorem stripTime_eq (t : Int) : stripTime t = msPerDay * (t / msPerDay) := by
  unfold stripTime
  rw [Int.fdiv_eq_ediv _ (by norm_num [msPerDay])]

/-- Normal form of the period calculation: writing `D` and `A` for the
calendar-day indices of the reference and anchor timestamps, the window is
`[msPerDay * (D - (D - A) % 14), msPerDay * (D - (D - A) % 14 + 13)]`. -/
theorem getPeriodForDate_eq (d a : Int) :
    getPeriodForDate d a =
      { start := msPerDay * (d / msPerDay - (d / msPerDay - a / msPerDay) % 14),
        end_ := msPerDay * (d / msPerDay - (d / msPerDay - a / msPerDay) % 14 + 13) } := by
  unfold getPeriodForDate
  dsimp only
  rw [stripTime_eq, stripTime_eq]
  have hdiff : (msPerDay * (d / msPerDay) - msPerDay * (a / msPerDay)).fdiv msPerDay
      = d / msPerDay - a / msPerDay := by
    rw [← Int.mul_sub, Int.mul_fdiv_cancel_left _ (by norm_num [msPerDay])]
  rw [hdiff, tmod_fix]
  simp only [Period.mk.injEq]
  constructor <;> ring

theorem stripTime_mul (k : Int) : stripTime (msPerDay * k) = msPerDay * k := by
  rw [stripTime_eq, Int.mul_ediv_cancel_left _ (by norm_num [msPerDay])]

/-- C1: for every reference date `d` (a calendar date, i.e. time-stripped) and
anchor `a`, `getPeriodForDate d a` is a window of time-stripped calendar dates
whose end is exactly 13 days after its start — a span of 14 consecutive days —
and which contains `d`: `start ≤ d ≤ end`. -/
theorem period_window_span_contains (d a : Int) (hd : stripTime d = d) :
    (getPeriodForDate d a).end_ - (getPeriodForDate d a).start = 13 * msPerDay
  ∧ stripTime (getPeriodForDate d a).start = (getPeriodForDate d a).start
  ∧ stripTime (getPeriodForDate d a).end_ = (getPeriodForDate d a).end_
  ∧ (getPeriodForDate d a).start ≤ d
  ∧ d ≤ (getPeriodForDate d a).end_ := by
  rw [getPeriodForDate_eq]
  dsimp only
  rw [stripTime_eq] at hd
  refine ⟨by ring, stripTime_mul _, stripTime_mul _, ?_, ?_⟩ <;>
    (simp only [msPerDay] at hd ⊢; omega)

/-- Witness for C1 at the spec's Scenario A: reference day 19727 (2024-01-05)
and anchor day 19723 (2024-01-01), in epoch-day timestamps. -/
theorem period_window_span_contains_witness :
    stripTime (19727 * msPerDay) = 19727 * msPerDay
  ∧ ((getPeriodForDate (19727 * msPerDay) (19723 * msPerDay)).end_
        - (getPeriodForDate (19727 * msPerDay) (19723 * msPerDay)).start = 13 * msPerDay
    ∧ stripTime (getPeriodForDate (19727 * msPerDay) (19723 * msPerDay)).start
        = (getPeriodForDate (19727 * msPerDay) (19723 * msPerDay)).start
    ∧ stripTime (getPeriodForDate (19727 * msPerDay) (19723 * msPerDay)).end_
        = (getPeriodForDate (19727 * msPerDay) (19723 * msPerDay)).end_
    ∧ (getPeriodForDate (19727 * msPerDay) (19723 * msPerDay)).start ≤ 19727 * msPerDay
    ∧ 19727 * msPerDay ≤ (getPeriodForDate (19727 * msPerDay) (19723 * msPerDay)).end_) :=
  ⟨by decide, period_window_span_contains (19727 * msPerDay) (19723 * msPerDay) (by decide)⟩

/-- C2 fails as stated: with reference day 19736 (2024-01-14) and anchor day
19723 (2024-01-01) the day-offset subtracted from the reference date is 13,
which is not in the half-open interval [0,13) the claim asserts. -/
theorem period_offset_not_lt_13 :
    ¬ ((stripTime (19736 * msPerDay)
        - (getPeriodForDate (19736 * msPerDay) (19723 * msPerDay)).start) / msPerDay < 13) := by
  decide

/-- C2 amended: the day-offset subtracted from the reference date is the
floored modulo by 14 of the signed day-difference between reference and
anchor — always non-negative, in [0,14) rather than the stated [0,13) — and
consequently the start day is congruent to the anchor day modulo 14 under
floored modulo. -/
theorem period_offset_floored (d a : Int) :
    (stripTime d - (getPeriodForDate d a).start) / msPerDay
        = ((stripTime d - stripTime a) / msPerDay).fmod 14
  ∧ 0 ≤ (stripTime d - (getPeriodForDate d a).start) / msPerDay
  ∧ (stripTime d - (getPeriodForDate d a).start) / msPerDay < 14
  ∧ (((getPeriodForDate d a).start - stripTime a) / msPerDay).fmod 14 = 0 := by
  simp only [getPeriodForDate_eq, stripTime_eq,
    Int.fmod_eq_emod _ (show (0:Int) ≤ 14 by norm_num)]
  simp only [msPerDay]
  refine ⟨?_, ?_, ?_, ?_⟩ <;> omega

/-- C3: periods tile time exactly, with no gaps and no overlap — the period of
`d + 14 days` starts one day after the period of `d` ends, and the
previous/next navigation targets `start - 1 day` and `end + 1 day` land in the
immediately adjacent 14-day windows, for every reference date and anchor. -/
theorem period_adjacent_tiling (d a : Int) :
    (getPeriodForDate (addDays d 14) a).start = (getPeriodForDate d a).end_ + msPerDay
  ∧ getPeriodForDate (addDays (getPeriodForDate d a).start (-1)) a
      = { start := (getPeriodForDate d a).start - 14 * msPerDay,
          end_ := (getPeriodForDate d a).start - msPerDay }
  ∧ getPeriodForDate (addDays (getPeriodForDate d a).end_ 1) a
      = { start := (getPeriodForDate d a).end_ + msPerDay,
          end_ := (getPeriodForDate d a).end_ + 14 * msPerDay } := by
  simp only [getPeriodForDate_eq, addDays, Period.mk.injEq, msPerDay]
  refine ⟨?_, ⟨?_, ?_⟩, ⟨?_, ?_⟩⟩ <;> omega

/-- An entry's date string: either a well-formed calendar-date string, carried
as the day index it denotes, or a string `new Date` cannot parse. -/
inductive DateStr where
  | valid (day : Int)
  | invalid
deriving DecidableEq

/-- Embeds `parseISO` (App.js lines 24-28): a well-formed calendar-date string
parses to the midnight timestamp of its day; an unparseable string falls back
to `new Date()`, the current moment, threaded here as `now`. -/
def parseISO (s : DateStr) (now : Int) : Int :=
  match s with
  | DateStr.valid day => msPerDay * day
  | DateStr.invalid => now

/-- An entry's `amount` value, classified by what `Number(·)` coerces it to:
a finite number, plus or minus Infinity (e.g. the JSON literal 1e999 or the
string "Infinity", both reachable through an imported backup, which validates
nothing beyond the id), or NaN. -/
inductive JSAmount where
  | num (q : ℚ)
  | inf
  | negInf
  | nonNum
deriving DecidableEq

/-- A JavaScript number as produced and consumed by the aggregation: a finite
value (idealized as an exact rational), one of the two infinities, or NaN. -/
inductive JSNum where
  | num (q : ℚ)
  | posInf
  | negInf
  | nan
deriving DecidableEq

/-- JavaScript `+` on numbers: NaN absorbs everything, opposite infinities
give NaN, an infinity absorbs every finite value, and finite values add.
Finite addition is idealized as exact (floating-point rounding and overflow
of finite sums are outside the embedding); the non-finite behavior is exact. -/
def jsAdd : JSNum → JSNum → JSNum
  | JSNum.nan, _ => JSNum.nan
  | _, JSNum.nan => JSNum.nan
  | JSNum.posInf, JSNum.negInf => JSNum.nan
  | JSNum.posInf, _ => JSNum.posInf
  | JSNum.negInf, JSNum.posInf => JSNum.nan
  | JSNum.negInf, _ => JSNum.negInf
  | JSNum.num _, JSNum.posInf => JSNum.posInf
  | JSNum.num _, JSNum.negInf => JSNum.negInf
  | JSNum.num p, JSNum.num q => JSNum.num (p + q)

/-- Embeds the coercion `Number(b.amount) || 0` (App.js line 461): a finite
coercion contributes its value (when it is 0, the falsy fallback returns the
same 0); NaN is falsy and is replaced by 0; the infinities are truthy and
pass through unreplaced. -/
def amountOrZero (a : JSAmount) : JSNum :=
  match a with
  | JSAmount.num q => JSNum.num q
  | JSAmount.inf => JSNum.posInf
  | JSAmount.negInf => JSNum.negInf
  | JSAmount.nonNum => JSNum.num 0

/-- Spec-side finite contribution of an amount — its value for a finite
coercion and 0 otherwise — used to compare `calcTotals` against the spec's
per-category plain sum on categories free of infinite coercions. -/
def finitePart (a : JSAmount) : ℚ :=
  match a with
  | JSAmount.num q => q
  | _ => 0

/-- An entry record.  Only the fields the aggregation core consults are
modelled: `id` (used by deletion), the date string and the amount; the
`who`/`whoName` and per-category label fields are presentation-only. -/
structure Entry where
  id : String
  date : DateStr
  amount : JSAmount
deriving DecidableEq

/-- The four ordered per-category entry sequences of a tracker's `data`. -/
structure TrackerData where
  income : List Entry
  expenses : List Entry
  savings : List Entry
  emergency : List Entry
deriving DecidableEq

/-- Embeds the `inRange` closure of `filterEntriesByPeriod` (App.js 448-451):
`d >= period.start && d <= period.end` on the parsed date. -/
def inRange (period : Period) (now : Int) (iso : DateStr) : Bool :=
  let d := parseISO iso now
  decide (period.start ≤ d) && decide (d ≤ period.end_)

/-- Embeds `filterEntriesByPeriod` (App.js 447-458): each of the four
sequences is filtered by `inRange` on its own. -/
def filterEntriesByPeriod (data : TrackerData) (period : Period) (now : Int) : TrackerData :=
  { income := data.income.filter (fun e => inRange period now e.date),
    expenses := data.expenses.filter (fun e => inRange period now e.date),
    savings := data.savings.filter (fun e => inRange period now e.date),
    emergency := data.emergency.filter (fun e => inRange period now e.date) }

/-- The per-category totals record produced by `calcTotals`, over the JS
number domain. -/
structure JSTotals where
  income : JSNum
  expenses : JSNum
  savings : JSNum
  emergency : JSNum
deriving DecidableEq

/-- The totals record restricted to finite values, the domain over which the
displayed spending-money expression is stated. -/
structure Totals where
  income : ℚ
  expenses : ℚ
  savings : ℚ
  emergency : ℚ
deriving DecidableEq

/-- Embeds the `sum` closure of `calcTotals` (App.js line 461):
`arr.reduce((a, b) => a + (Number(b.amount) || 0), 0)`. -/
def sumAmounts (arr : List Entry) : JSNum :=
  arr.foldl (fun a b => jsAdd a (amountOrZero b.amount)) (JSNum.num 0)

/-- Embeds `calcTotals` (App.js 460-468). -/
def calcTotals (periodEntries : TrackerData) : JSTotals :=
  { income := sumAmounts periodEntries.income,
    expenses := sumAmounts periodEntries.expenses,
    savings := sumAmounts periodEntries.savings,
    emergency := sumAmounts periodEntries.emergency }

/-- Embeds the Spending Money figure of the Dashboard card (App.js line 431):
`totals.income - totals.expenses - totals.savings - totals.emergency`. -/
def dashboardSpendingMoney (t : Totals) : ℚ :=
  t.income - t.expenses - t.savings - t.emergency

/-- Embeds the Spending Money figure of ReportView (App.js line 725), the same
expression as the Dashboard card. -/
def reportSpendingMoney (t : Totals) : ℚ :=
  t.income - t.expenses - t.savings - t.emergency

theorem sumAmounts_eq_map_sum (l : List Entry)
    (h : ∀ e ∈ l, e.amount ≠ JSAmount.inf ∧ e.amount ≠ JSAmount.negInf) :
    sumAmounts l = JSNum.num ((l.map (fun e => finitePart e.amount)).sum) := by
  have key : ∀ (l : List Entry),
      (∀ e ∈ l, e.amount ≠ JSAmount.inf ∧ e.amount ≠ JSAmount.negInf) →
      ∀ acc : ℚ, l.foldl (fun a b => jsAdd a (amountOrZero b.amount)) (JSNum.num acc)
        = JSNum.num (acc + (l.map (fun e => finitePart e.amount)).sum) := by
    intro l
    induction l with
    | nil =>
      intro _ acc
      simp
    | cons x xs ih =>
      intro hx acc
      have hxa := hx x (List.mem_cons_self x xs)
      have hstep : jsAdd (JSNum.num acc) (amountOrZero x.amount)
          = JSNum.num (acc + finitePart x.amount) := by
        cases hamt : x.amount with
        | num q => rfl
        | inf => exact absurd hamt hxa.1
        | negInf => exact absurd hamt hxa.2
        | nonNum => rfl
      simp only [List.foldl_cons, hstep, List.map_cons, List.sum_cons]
      rw [ih (fun e he => hx e (List.mem_cons_of_mem _ he)) (acc + finitePart x.amount),
        add_assoc]
  simpa [sumAmounts] using key l h 0

/-- C4: `filterEntriesByPeriod` keeps, independently in each of the four
category sequences, exactly the entries whose (well-formed) date lies in the
period window, inclusive at both endpoints. -/
theorem filter_entries_inclusive (data : TrackerData) (p : Period) (now : Int)
    (e : Entry) (dy : Int) (he : e.date = DateStr.valid dy) :
    (e ∈ (filterEntriesByPeriod data p now).income
       ↔ e ∈ data.income ∧ p.start ≤ msPerDay * dy ∧ msPerDay * dy ≤ p.end_)
  ∧ (e ∈ (filterEntriesByPeriod data p now).expenses
       ↔ e ∈ data.expenses ∧ p.start ≤ msPerDay * dy ∧ msPerDay * dy ≤ p.end_)
  ∧ (e ∈ (filterEntriesByPeriod data p now).savings
       ↔ e ∈ data.savings ∧ p.start ≤ msPerDay * dy ∧ msPerDay * dy ≤ p.end_)
  ∧ (e ∈ (filterEntriesByPeriod data p now).emergency
       ↔ e ∈ data.emergency ∧ p.start ≤ msPerDay * dy ∧ msPerDay * dy ≤ p.end_) := by
  refine ⟨?_, ?_, ?_, ?_⟩ <;>
    simp [filterEntriesByPeriod, List.mem_filter, inRange, parseISO, he, and_assoc]

/-- Witness for C4: a one-entry income sequence dated on the window's start
day is kept in the filtered income and the window bounds hold for it. -/
theorem filter_entries_inclusive_witness :
    (⟨"e1", DateStr.valid 0, JSAmount.num 5⟩ : Entry).date = DateStr.valid 0
  ∧ ((⟨"e1", DateStr.valid 0, JSAmount.num 5⟩ : Entry)
        ∈ (filterEntriesByPeriod ⟨[⟨"e1", DateStr.valid 0, JSAmount.num 5⟩], [], [], []⟩
            ⟨0, 13 * msPerDay⟩ 0).income
       ↔ (⟨"e1", DateStr.valid 0, JSAmount.num 5⟩ : Entry)
            ∈ (⟨[⟨"e1", DateStr.valid 0, JSAmount.num 5⟩], [], [], []⟩ : TrackerData).income
          ∧ (⟨0, 13 * msPerDay⟩ : Period).start ≤ msPerDay * 0
          ∧ msPerDay * 0 ≤ (⟨0, 13 * msPerDay⟩ : Period).end_)
  ∧ ((⟨"e1", DateStr.valid 0, JSAmount.num 5⟩ : Entry)
        ∈ (filterEntriesByPeriod ⟨[⟨"e1", DateStr.valid 0, JSAmount.num 5⟩], [], [], []⟩
            ⟨0, 13 * msPerDay⟩ 0).expenses
       ↔ (⟨"e1", DateStr.valid 0, JSAmount.num 5⟩ : Entry)
            ∈ (⟨[⟨"e1", DateStr.valid 0, JSAmount.num 5⟩], [], [], []⟩ : TrackerData).expenses
          ∧ (⟨0, 13 * msPerDay⟩ : Period).start ≤ msPerDay * 0
          ∧ msPerDay * 0 ≤ (⟨0, 13 * msPerDay⟩ : Period).end_)
  ∧ ((⟨"e1", DateStr.valid 0, JSAmount.num 5⟩ : Entry)
        ∈ (filterEntriesByPeriod ⟨[⟨"e1", DateStr.valid 0, JSAmount.num 5⟩], [], [], []⟩
            ⟨0, 13 * msPerDay⟩ 0).savings
       ↔ (⟨"e1", DateStr.valid 0, JSAmount.num 5⟩ : Entry)
            ∈ (⟨[⟨"e1", DateStr.valid 0, JSAmount.num 5⟩], [], [], []⟩ : TrackerData).savings
          ∧ (⟨0, 13 * msPerDay⟩ : Period).start ≤ msPerDay * 0
          ∧ msPerDay * 0 ≤ (⟨0, 13 * msPerDay⟩ : Period).end_)
  ∧ ((⟨"e1", DateStr.valid 0, JSAmount.num 5⟩ : Entry)
        ∈ (filterEntriesByPeriod ⟨[⟨"e1", DateStr.valid 0, JSAmount.num 5⟩], [], [], []⟩
            ⟨0, 13 * msPerDay⟩ 0).emergency
       ↔ (⟨"e1", DateStr.valid 0, JSAmount.num 5⟩ : Entry)
            ∈ (⟨[⟨"e1", DateStr.valid 0, JSAmount.num 5⟩], [], [], []⟩ : TrackerData).emergency
          ∧ (⟨0, 13 * msPerDay⟩ : Period).start ≤ msPerDay * 0
          ∧ msPerDay * 0 ≤ (⟨0, 13 * msPerDay⟩ : Period).end_) :=
  ⟨rfl, filter_entries_inclusive _ _ _ _ 0 rfl⟩

/-- C5 fails as stated: an amount coercing to Infinity — reachable e.g.
through an imported backup carrying the amount 1e999 — is truthy, so
`Number(b.amount) || 0` passes it through unreplaced: the income total of a
single such entry is Infinity, not the 0 the claim assigns to every amount
that fails to coerce to a finite number. -/
theorem calc_totals_infinity_not_zero :
    (calcTotals ⟨[⟨"i1", DateStr.valid 0, JSAmount.inf⟩], [], [], []⟩).income = JSNum.posInf
  ∧ JSNum.posInf ≠ JSNum.num 0 := by
  refine ⟨by decide, by decide⟩

/-- C5 amended: `calcTotals` sums the `amount` field per category; an amount
coercing to NaN contributes exactly 0 — never an error, never excluded from
iteration — but an amount coercing to plus or minus Infinity is truthy and is
passed through into the sum rather than zeroed, so only NaN coercions are
zeroed, not every non-finite coercion.  Every category free of infinite
coercions totals the plain sum of its amounts with NaN as 0; the spec's
example amounts 10, -3, "bad", 0 sum to 7, while a single Infinity amount
totals Infinity. -/
theorem calc_totals_sums (data : TrackerData) :
    ((∀ e ∈ data.income, e.amount ≠ JSAmount.inf ∧ e.amount ≠ JSAmount.negInf) →
        (calcTotals data).income
          = JSNum.num ((data.income.map (fun e => finitePart e.amount)).sum))
  ∧ ((∀ e ∈ data.expenses, e.amount ≠ JSAmount.inf ∧ e.amount ≠ JSAmount.negInf) →
        (calcTotals data).expenses
          = JSNum.num ((data.expenses.map (fun e => finitePart e.amount)).sum))
  ∧ ((∀ e ∈ data.savings, e.amount ≠ JSAmount.inf ∧ e.amount ≠ JSAmount.negInf) →
        (calcTotals data).savings
          = JSNum.num ((data.savings.map (fun e => finitePart e.amount)).sum))
  ∧ ((∀ e ∈ data.emergency, e.amount ≠ JSAmount.inf ∧ e.amount ≠ JSAmount.negInf) →
        (calcTotals data).emergency
          = JSNum.num ((data.emergency.map (fun e => finitePart e.amount)).sum))
  ∧ sumAmounts
      [⟨"a", DateStr.valid 0, JSAmount.num 10⟩, ⟨"b", DateStr.valid 0, JSAmount.num (-3)⟩,
       ⟨"c", DateStr.valid 0, JSAmount.nonNum⟩, ⟨"d", DateStr.valid 0, JSAmount.num 0⟩]
      = JSNum.num 7
  ∧ sumAmounts [⟨"i2", DateStr.valid 0, JSAmount.inf⟩] = JSNum.posInf := by
  refine ⟨fun h => sumAmounts_eq_map_sum _ h, fun h => sumAmounts_eq_map_sum _ h,
    fun h => sumAmounts_eq_map_sum _ h, fun h => sumAmounts_eq_map_sum _ h,
    by norm_num [sumAmounts, jsAdd, amountOrZero], by decide⟩

/-- Witness for C5 at the spec's example amounts placed in the income
category: none of them coerces to an infinity and the total is their sum. -/
theorem calc_totals_sums_witness :
    (∀ e ∈ (⟨[⟨"a", DateStr.valid 0, JSAmount.num 10⟩, ⟨"b", DateStr.valid 0, JSAmount.num (-3)⟩,
        ⟨"c", DateStr.valid 0, JSAmount.nonNum⟩, ⟨"d", DateStr.valid 0, JSAmount.num 0⟩],
        [], [], []⟩ : TrackerData).income,
      e.amount ≠ JSAmount.inf ∧ e.amount ≠ JSAmount.negInf)
  ∧ (calcTotals ⟨[⟨"a", DateStr.valid 0, JSAmount.num 10⟩, ⟨"b", DateStr.valid 0, JSAmount.num (-3)⟩,
        ⟨"c", DateStr.valid 0, JSAmount.nonNum⟩, ⟨"d", DateStr.valid 0, JSAmount.num 0⟩],
        [], [], []⟩).income
      = JSNum.num ((([⟨"a", DateStr.valid 0, JSAmount.num 10⟩,
          ⟨"b", DateStr.valid 0, JSAmount.num (-3)⟩, ⟨"c", DateStr.valid 0, JSAmount.nonNum⟩,
          ⟨"d", DateStr.valid 0, JSAmount.num 0⟩] : List Entry).map
            (fun e => finitePart e.amount)).sum) :=
  ⟨by decide,
    (calc_totals_sums ⟨[⟨"a", DateStr.valid 0, JSAmount.num 10⟩,
      ⟨"b", DateStr.valid 0, JSAmount.num (-3)⟩, ⟨"c", DateStr.valid 0, JSAmount.nonNum⟩,
      ⟨"d", DateStr.valid 0, JSAmount.num 0⟩], [], [], []⟩).1 (by decide)⟩

/-- C6: the displayed spending-money figure is exactly
`income - expenses - savings - emergency` in both the Dashboard card and the
printed report, and it is not clamped: a totals value whose expenses exceed
its income yields a negative figure. -/
theorem spending_money_exact (t : Totals) :
    dashboardSpendingMoney t = t.income - t.expenses - t.savings - t.emergency
  ∧ reportSpendingMoney t = t.income - t.expenses - t.savings - t.emergency
  ∧ dashboardSpendingMoney { income := 0, expenses := 1, savings := 0, emergency := 0 } < 0 :=
  ⟨rfl, rfl, by norm_num [dashboardSpendingMoney]⟩

/-- C10: an entry whose date string does not parse is dated at the current
moment by the `parseISO` fallback, so each category filter keeps it exactly
when `now` lies inside the period window; it is never dropped outright and
never an error. -/
theorem invalid_date_filtered_by_now (data : TrackerData) (p : Period) (now : Int)
    (e : Entry) (he : e.date = DateStr.invalid) :
    (e ∈ data.income →
        (e ∈ (filterEntriesByPeriod data p now).income ↔ p.start ≤ now ∧ now ≤ p.end_))
  ∧ (e ∈ data.expenses →
        (e ∈ (filterEntriesByPeriod data p now).expenses ↔ p.start ≤ now ∧ now ≤ p.end_))
  ∧ (e ∈ data.savings →
        (e ∈ (filterEntriesByPeriod data p now).savings ↔ p.start ≤ now ∧ now ≤ p.end_))
  ∧ (e ∈ data.emergency →
        (e ∈ (filterEntriesByPeriod data p now).emergency ↔ p.start ≤ now ∧ now ≤ p.end_)) := by
  refine ⟨?_, ?_, ?_, ?_⟩ <;> intro hmem <;>
    simp [filterEntriesByPeriod, List.mem_filter, inRange, parseISO, he, hmem]

/-- Witness for C10: an unparseable-dated expense entry is kept when the
current moment is day 5 of the window starting at day 0. -/
theorem invalid_date_filtered_by_now_witness :
    (⟨"x", DateStr.invalid, JSAmount.num 1⟩ : Entry).date = DateStr.invalid
  ∧ ((⟨"x", DateStr.invalid, JSAmount.num 1⟩ : Entry)
        ∈ (⟨[], [⟨"x", DateStr.invalid, JSAmount.num 1⟩], [], []⟩ : TrackerData).expenses
  ∧ ((⟨"x", DateStr.invalid, JSAmount.num 1⟩ : Entry)
        ∈ (filterEntriesByPeriod ⟨[], [⟨"x", DateStr.invalid, JSAmount.num 1⟩], [], []⟩
            ⟨0, 13 * msPerDay⟩ (5 * msPerDay)).expenses
      ↔ (⟨0, 13 * msPerDay⟩ : Period).start ≤ 5 * msPerDay
        ∧ 5 * msPerDay ≤ (⟨0, 13 * msPerDay⟩ : Period).end_)) :=
  ⟨rfl, by decide,
    (invalid_date_filtered_by_now ⟨[], [⟨"x", DateStr.invalid, JSAmount.num 1⟩], [], []⟩
      ⟨0, 13 * msPerDay⟩ (5 * msPerDay) ⟨"x", DateStr.invalid, JSAmount.num 1⟩ rfl).2.1
      (by decide)⟩

/-- A tracker ("family budget") record as stored under the trackers key
(App.js line 63): id, display name, the raw anchor-date string, the member
account identifiers, and the four per-category entry sequences. -/
structure Tracker where
  id : String
  name : String
  anchorISO : String
  members : List String
  data : TrackerData
deriving DecidableEq

/-- The result of the test `/^\\d{4}-\\d{2}-\\d{2}$/.test(iso)` (App.js line
361).  In a JavaScript regex literal, `\\` is an escaped backslash matching
the literal character `\`, and each quantifier repeats the preceding atom `d`;
anchored at both ends, the source's pattern therefore matches exactly the
13-character string `\dddd-\dd-\dd` (a backslash, four letters d, a dash, a
backslash, two d, a dash, a backslash, two d) — not a digit pattern. -/
def anchorRegexTest (iso : String) : Bool :=
  iso = "\\dddd-\\dd-\\dd"

/-- Embeds the Set Payday Start handler (App.js lines 359-362):
`prompt(...) || tracker.anchorISO` falls back to the current anchor when the
prompt is cancelled (null) or answered with the falsy empty string, then the
regex test gates `updateTracker({ anchorISO: iso })`. -/
def setPaydayStart (tracker : Tracker) (promptResult : Option String) : Tracker :=
  let iso := match promptResult with
    | some s => if s = "" then tracker.anchorISO else s
    | none => tracker.anchorISO
  if anchorRegexTest iso then { tracker with anchorISO := iso } else tracker

/-- A concrete tracker record used by the concrete evaluations below. -/
def sampleTracker (i : String) : Tracker :=
  { id := i, name := "My Family Budget", anchorISO := "2024-01-01",
    members := ["mom@home"],
    data := { income := [], expenses := [], savings := [], emergency := [] } }

/-- C7 is right and the code is wrong: the regex literal written in the source
matches only the literal string `\dddd-\dd-\dd`, so the handler rejects every
well-formed YYYY-MM-DD string — entering 2024-03-15 leaves the tracker,
anchor date included, completely unchanged, although the code's own prompt
text asks for a YYYY-MM-DD date. -/
theorem anchor_update_rejects_wellformed :
    anchorRegexTest "2024-03-15" = false
  ∧ setPaydayStart (sampleTracker "fam1") (some "2024-03-15") = sampleTracker "fam1"
  ∧ anchorRegexTest "\\dddd-\\dd-\\dd" = true := by
  refine ⟨by decide, by decide, by decide⟩

/-- The success alert of handleImport (App.js line 662). -/
def importOkAlert : String := "Imported! If this replaced your current family, re-login if needed."

/-- The failure alert of handleImport (App.js line 664). -/
def importErrAlert : String := "Not a valid backup file."

/-- The outcome of `JSON.parse(reader.result)` on an uploaded backup file:
either the parse throws, or it yields a tracker-shaped document.  The only
field the import inspects is `id`; a document whose id field is missing or
otherwise falsy is modelled with `id = ""`, so that the JS guard `parsed?.id`
is truthy exactly on a present, non-empty identifier. -/
inductive ParseResult where
  | failure
  | success (parsed : Tracker)

/-- Embeds `handleImport` (App.js lines 653-668): on a parse failure or a
falsy id, the catch block alerts and no state changes; otherwise
`setTrackers({ ...trackers, [parsed.id]: parsed })` replaces the record stored
under the imported id wholesale and leaves every other key as it was. -/
def handleImport (trackers : String → Option Tracker) (file : ParseResult) :
    (String → Option Tracker) × String :=
  match file with
  | ParseResult.failure => (trackers, importErrAlert)
  | ParseResult.success parsed =>
    if parsed.id = "" then (trackers, importErrAlert)
    else (fun k => if k = parsed.id then some parsed else trackers k, importOkAlert)

/-- C8: import validates only the identifier: a payload that fails to parse,
or whose identifier is absent, is rejected with the user-facing error alert
and the stored trackers — the active one included — are left exactly as they
were; a payload with an identifier replaces the tracker stored under that
identifier wholesale and leaves every other stored tracker untouched. -/
theorem import_validates_id_only (trackers : String → Option Tracker) (file : ParseResult) :
    (file = ParseResult.failure → handleImport trackers file = (trackers, importErrAlert))
  ∧ (∀ parsed, file = ParseResult.success parsed → parsed.id = "" →
        handleImport trackers file = (trackers, importErrAlert))
  ∧ (∀ parsed, file = ParseResult.success parsed → parsed.id ≠ "" →
        (handleImport trackers file).1 parsed.id = some parsed
      ∧ (∀ k, k ≠ parsed.id → (handleImport trackers file).1 k = trackers k)
      ∧ (handleImport trackers file).2 = importOkAlert) := by
  refine ⟨?_, ?_, ?_⟩
  · rintro rfl
    rfl
  · rintro parsed rfl hid
    simp [handleImport, hid]
  · rintro parsed rfl hid
    refine ⟨by simp [handleImport, hid], ?_, by simp [handleImport, hid]⟩
    intro k hk
    simp [handleImport, hid, hk]

/-- A concrete two-key tracker store used by the import witness. -/
def sampleStore : String → Option Tracker :=
  fun k => if k = "fam1" then some (sampleTracker "fam1") else none

/-- Witness for C8: a failed parse leaves the sample store untouched, and a
successful import under the fresh id fam2 stores the new tracker there while
the tracker under fam1 stays as it was. -/
theorem import_validates_id_only_witness :
    handleImport sampleStore ParseResult.failure = (sampleStore, importErrAlert)
  ∧ (handleImport sampleStore (ParseResult.success (sampleTracker "fam2"))).1 "fam2"
      = some (sampleTracker "fam2")
  ∧ (handleImport sampleStore (ParseResult.success (sampleTracker "fam2"))).1 "fam1"
      = sampleStore "fam1"
  ∧ (handleImport sampleStore (ParseResult.success (sampleTracker "fam2"))).2
      = importOkAlert := by
  have h := (import_validates_id_only sampleStore
    (ParseResult.success (sampleTracker "fam2"))).2.2 (sampleTracker "fam2") rfl (by decide)
  exact ⟨(import_validates_id_only sampleStore ParseResult.failure).1 rfl,
    h.1, h.2.1 "fam1" (by decide), h.2.2⟩

/-- Embeds `load` (App.js lines 67-75).  `localStorage.getItem` returns null
or the stored string, modelled as an `Option String` argument; the falsy test
`!raw` holds of null and of the empty string; `JSON.parse` is the opaque
boundary collaborator, modelled as a caller-supplied partial parse function
whose `none` stands for a thrown exception, which the surrounding try/catch
turns into the fallback. -/
def load {α : Type} (raw : Option String) (parse : String → Option α) (fallback : α) : α :=
  match raw with
  | none => fallback
  | some s => if s = "" then fallback else (parse s).getD fallback

/-- C9: `load` is a total function — reading the persistent store never
crashes — and a missing, empty, or unparseable stored value yields the
caller-supplied fallback rather than a propagated parse failure, while a
well-formed non-empty stored value yields its parsed form. -/
theorem load_never_crashes {α : Type} (parse : String → Option α) (fallback : α) :
    load none parse fallback = fallback
  ∧ load (some "") parse fallback = fallback
  ∧ (∀ s, parse s = none → load (some s) parse fallback = fallback)
  ∧ (∀ s v, s ≠ "" → parse s = some v → load (some s) parse fallback = v) := by
  refine ⟨rfl, rfl, ?_, ?_⟩
  · intro s hs
    by_cases h : s = "" <;> simp [load, h, hs]
  · intro s v hne hs
    simp [load, hne, hs]

/-- A concrete parse function used by the load witness. -/
def sampleParse : String → Option ℚ :=
  fun s => if s = "ok" then some 1 else none

/-- Witness for C9 at concrete store contents: absent, empty, malformed and
well-formed stored strings. -/
theorem load_never_crashes_witness :
    load none sampleParse (0 : ℚ) = 0
  ∧ load (some "") sampleParse (0 : ℚ) = 0
  ∧ load (some "bad") sampleParse (0 : ℚ) = 0
  ∧ load (some "ok") sampleParse (0 : ℚ) = 1 := by
  have h := load_never_crashes sampleParse (0 : ℚ)
  exact ⟨h.1, h.2.1, h.2.2.1 "bad" (by decide), h.2.2.2 "ok" 1 (by decide) (by decide)⟩

end FamilyBudget
